import Mathlib

/-!
Verification of the energia_monitoring deduplication / query / validation pipeline.

The development shallowly embeds the parts of the repository that the verified
properties talk about:

* `core/duplicate_handler.py` — tables are modelled as a list of column names
  plus a list of rows (each row a list of cell values); `pandas.drop_duplicates`
  with keep equal to first or last is modelled by the order-preserving
  deduplication functions below.
* `data_handler.py` — the cleaned series is a list of (interval-start, energy)
  rows; interval starts are minutes since 1970-01-01 00:00 and calendar months
  are computed with the standard civil-calendar conversion, matching the
  month-start (MS) resampling rule of pandas.
* `core/data_validator.py` — validator rows carry optional timestamps/energy
  (None modelling NaT/NaN); a Python exception raised by a check is modelled
  by `Except.error`.
-/

namespace EnergiaMonitoring

/-! ## DataFrame model (core/duplicate_handler.py) -/

/-- A cell of a table: the repository's tables hold strings (meter ids),
timestamps (kept here as their string rendering, compared for equality only)
and numbers (energy in kWh, exact rationals). -/
inductive Value where
  | str : String → Value
  | num : Rat → Value
  deriving DecidableEq, Repr

/-- A pandas DataFrame: named columns and a list of rows in order.
Cell `c` of a row is looked up through the position of `c` in `columns`. -/
structure DataFrame where
  columns : List String
  rows : List (List Value)
  deriving DecidableEq, Repr

/-- The two keep strategies accepted by `remove_duplicates`
(`keep_strategy='first'` / `'last'`). -/
inductive KeepStrategy where
  | first
  | last
  deriving DecidableEq, Repr

/-- `drop_duplicates(keep='last')`: a row survives exactly when its key does not
occur again among the later rows; surviving rows keep their original order. -/
def dedupKeepLast {α β : Type} [DecidableEq β] (key : α → β) : List α → List α
  | [] => []
  | a :: l =>
    if key a ∈ l.map key then dedupKeepLast key l else a :: dedupKeepLast key l

/-- `drop_duplicates(keep='first')`: a row survives exactly when its key did not
already occur among the earlier rows; expressed through `dedupKeepLast` on the
reversed list. -/
def dedupKeepFirst {α β : Type} [DecidableEq β] (key : α → β) (l : List α) : List α :=
  (dedupKeepLast key l.reverse).reverse

/-- `drop_duplicates(subset=key, keep=strategy)`. -/
def dedupBy {α β : Type} [DecidableEq β] (keep : KeepStrategy) (key : α → β)
    (l : List α) : List α :=
  match keep with
  | .first => dedupKeepFirst key l
  | .last => dedupKeepLast key l

/-- Cell of `row` at column `c`, `none` when the column is absent or the row is
too short. -/
def getCell (cols : List String) (row : List Value) (c : String) : Option Value :=
  (cols.indexOf? c).bind fun i => row.get? i

/-- The Deduplication Key columns of `_remove_time_based_duplicates`
(`duplicate_columns` in the source; the energy column is deliberately left out). -/
def duplicate_columns : List String :=
  ["Gyariszam", "Azonosito", "Kezdo_datum", "Zaro_datum"]

/-- The Deduplication Key of a row: its cells at the four key columns. -/
def dedupKey (cols : List String) (row : List Value) : List (Option Value) :=
  duplicate_columns.map (getCell cols row)

/-- `DuplicateHandler._remove_full_duplicates`: `df.drop_duplicates()` (full-row
key, pandas default keep='first'). -/
def remove_full_duplicates (df : DataFrame) : DataFrame :=
  { df with rows := dedupKeepFirst id df.rows }

/-- `DuplicateHandler._remove_time_based_duplicates`: when one of the four key
columns is missing the pass returns the input unchanged with 0 removed;
otherwise it drops duplicates on the Deduplication Key and reports how many
rows went away. -/
def remove_time_based_duplicates (df : DataFrame) (keep : KeepStrategy) :
    DataFrame × Nat :=
  let missing_columns := duplicate_columns.filter fun c => decide (c ∉ df.columns)
  if missing_columns = [] then
    let df_clean := { df with rows := dedupBy keep (dedupKey df.columns) df.rows }
    (df_clean, df.rows.length - df_clean.rows.length)
  else
    (df, 0)

/-- `DuplicationStats` (dataclass): counts recorded after a resolution run. -/
structure DuplicationStats where
  initial_count : Nat
  final_count : Nat
  full_row_duplicates : Nat
  content_duplicates : Nat
  overlap_duplicates : Nat
  removed_total : Nat
  retention_rate : Rat
  deriving DecidableEq, Repr

/-- `DuplicateHandler._update_statistics`:
`retention_rate = final / initial * 100` when `initial > 0`, else `0`. -/
def update_statistics (initial final full_removed content_removed : Nat) :
    DuplicationStats :=
  { initial_count := initial
    final_count := final
    full_row_duplicates := full_removed
    content_duplicates := content_removed
    overlap_duplicates := 0
    removed_total := initial - final
    retention_rate := if 0 < initial then (final : Rat) / (initial : Rat) * 100 else 0 }

/-- `DuplicateHandler.remove_duplicates`: full-row pass, then time-based pass,
then statistics; returns the cleaned table together with the recorded
statistics. -/
def remove_duplicates (df : DataFrame) (keep : KeepStrategy) :
    DataFrame × DuplicationStats :=
  let initial_count := df.rows.length
  let df_clean := remove_full_duplicates df
  let after_full_dedup := df_clean.rows.length
  let full_duplicates_removed := initial_count - after_full_dedup
  let second := remove_time_based_duplicates df_clean keep
  let final_count := second.1.rows.length
  (second.1,
   update_statistics initial_count final_count full_duplicates_removed second.2)

/-! ### Deduplication lemmas -/

theorem dedupKeepLast_sublist {α β : Type} [DecidableEq β] (key : α → β)
    (l : List α) : (dedupKeepLast key l).Sublist l := by
  induction l with
  | nil => simp [dedupKeepLast]
  | cons a t ih =>
    rw [dedupKeepLast]
    split
    · exact ih.cons a
    · exact ih.cons₂ a

theorem dedupKeepLast_map_key_nodup {α β : Type} [DecidableEq β] (key : α → β)
    (l : List α) : ((dedupKeepLast key l).map key).Nodup := by
  induction l with
  | nil => simp [dedupKeepLast]
  | cons a t ih =>
    rw [dedupKeepLast]
    split
    · exact ih
    · rename_i hnot
      simp only [List.map_cons, List.nodup_cons]
      refine ⟨fun hmem => hnot ?_, ih⟩
      exact ((dedupKeepLast_sublist key t).map key).mem hmem

theorem dedupKeepLast_eq_self {α β : Type} [DecidableEq β] (key : α → β)
    (l : List α) (h : (l.map key).Nodup) : dedupKeepLast key l = l := by
  induction l with
  | nil => rfl
  | cons a t ih =>
    simp only [List.map_cons, List.nodup_cons] at h
    rw [dedupKeepLast, if_neg h.1, ih h.2]

theorem dedupKeepLast_idem {α β : Type} [DecidableEq β] (key : α → β)
    (l : List α) : dedupKeepLast key (dedupKeepLast key l) = dedupKeepLast key l :=
  dedupKeepLast_eq_self key _ (dedupKeepLast_map_key_nodup key l)

theorem dedupKeepLast_ne_nil {α β : Type} [DecidableEq β] (key : α → β)
    (l : List α) (h : l ≠ []) : dedupKeepLast key l ≠ [] := by
  induction l with
  | nil => exact absurd rfl h
  | cons a t ih =>
    rw [dedupKeepLast]
    split
    · rename_i hmem
      rcases List.mem_map.1 hmem with ⟨b, hb, -⟩
      exact ih (List.ne_nil_of_mem hb)
    · simp

theorem dedupKeepFirst_sublist {α β : Type} [DecidableEq β] (key : α → β)
    (l : List α) : (dedupKeepFirst key l).Sublist l := by
  have h := (dedupKeepLast_sublist key l.reverse).reverse
  rwa [List.reverse_reverse] at h

theorem dedupKeepFirst_map_key_nodup {α β : Type} [DecidableEq β] (key : α → β)
    (l : List α) : ((dedupKeepFirst key l).map key).Nodup := by
  rw [dedupKeepFirst, List.map_reverse, List.nodup_reverse]
  exact dedupKeepLast_map_key_nodup key l.reverse

theorem dedupKeepFirst_idem {α β : Type} [DecidableEq β] (key : α → β)
    (l : List α) : dedupKeepFirst key (dedupKeepFirst key l) = dedupKeepFirst key l := by
  rw [dedupKeepFirst, dedupKeepFirst, List.reverse_reverse, dedupKeepLast_idem]

theorem dedupBy_sublist {α β : Type} [DecidableEq β] (keep : KeepStrategy)
    (key : α → β) (l : List α) : (dedupBy keep key l).Sublist l := by
  cases keep
  · exact dedupKeepFirst_sublist key l
  · exact dedupKeepLast_sublist key l

theorem dedupBy_map_key_nodup {α β : Type} [DecidableEq β] (keep : KeepStrategy)
    (key : α → β) (l : List α) : ((dedupBy keep key l).map key).Nodup := by
  cases keep
  · exact dedupKeepFirst_map_key_nodup key l
  · exact dedupKeepLast_map_key_nodup key l

theorem remove_time_based_duplicates_sublist (df : DataFrame) (keep : KeepStrategy) :
    (remove_time_based_duplicates df keep).1.rows.Sublist df.rows ∧
    (remove_time_based_duplicates df keep).1.columns = df.columns := by
  simp only [remove_time_based_duplicates]
  split
  · exact ⟨dedupBy_sublist keep _ df.rows, rfl⟩
  · exact ⟨List.Sublist.refl _, rfl⟩

/-- The table of Scenario A / `test_emergency_fix_algorithm`: meter 123, rows 1
and 2 share sub-id A1 and the interval 00:00–00:15 with energies 0.000 and
0.150, row 3 covers 00:15–00:30, row 4 is sub-id A2. -/
def dfTest : DataFrame :=
  { columns := ["Gyariszam", "Azonosito", "Kezdo_datum", "Zaro_datum", "Hatasos_ertek_kWh"]
    rows :=
      [[.str "123", .str "A1", .str "2025-05-22 00:00", .str "2025-05-22 00:15", .num 0],
       [.str "123", .str "A1", .str "2025-05-22 00:00", .str "2025-05-22 00:15", .num (mkRat 15 100)],
       [.str "123", .str "A1", .str "2025-05-22 00:15", .str "2025-05-22 00:30", .num (mkRat 16 100)],
       [.str "123", .str "A2", .str "2025-05-22 00:00", .str "2025-05-22 00:15", .num (mkRat 14 100)]] }

/-- The Deduplication Key of the duplicated interval of Scenario A. -/
def keyA : List (Option Value) :=
  [some (.str "123"), some (.str "A1"),
   some (.str "2025-05-22 00:00"), some (.str "2025-05-22 00:15")]

/-- A one-row table used to evaluate the recorded statistics concretely. -/
def dfOne : DataFrame :=
  { columns := ["Gyariszam", "Azonosito", "Kezdo_datum", "Zaro_datum", "Hatasos_ertek_kWh"]
    rows := [[.str "123", .str "A1", .str "2025-05-22 00:00", .str "2025-05-22 00:15", .num 1]] }

/-- A table missing three of the four key columns. -/
def dfNoKey : DataFrame :=
  { columns := ["Gyariszam", "Hatasos_ertek_kWh"]
    rows := [[.str "123", .num 1], [.str "123", .num 1]] }

theorem remove_time_based_duplicates_all_cols (df : DataFrame) (keep : KeepStrategy)
    (hcols : ∀ c ∈ duplicate_columns, c ∈ df.columns) :
    remove_time_based_duplicates df keep =
      ({ df with rows := dedupBy keep (dedupKey df.columns) df.rows },
       df.rows.length - (dedupBy keep (dedupKey df.columns) df.rows).length) := by
  have hcond : (duplicate_columns.filter fun c => decide (c ∉ df.columns)) = [] :=
    List.filter_eq_nil_iff.2 fun c hc => by simp [hcols c hc]
  simp only [remove_time_based_duplicates]
  rw [if_pos hcond]

/-- C1: on any input table holding all four key columns, the table returned by
`remove_duplicates` has pairwise distinct Deduplication Keys (meter id, sub-id,
interval start, interval end); the energy value is not part of the key. -/
theorem remove_duplicates_key_unique (df : DataFrame) (keep : KeepStrategy)
    (hcols : ∀ c ∈ duplicate_columns, c ∈ df.columns) :
    ((remove_duplicates df keep).1.rows.map (dedupKey df.columns)).Nodup := by
  have hchar := remove_time_based_duplicates_all_cols (remove_full_duplicates df) keep
    (by simpa [remove_full_duplicates] using hcols)
  have hrows : (remove_duplicates df keep).1.rows =
      dedupBy keep (dedupKey df.columns) (dedupKeepFirst id df.rows) := by
    show (remove_time_based_duplicates (remove_full_duplicates df) keep).1.rows = _
    rw [hchar]
    rfl
  rw [hrows]
  exact dedupBy_map_key_nodup keep (dedupKey df.columns) (dedupKeepFirst id df.rows)

/-- Witness for C1 at the Scenario A table with keep='last'. -/
theorem remove_duplicates_key_unique_witness :
    (∀ c ∈ duplicate_columns, c ∈ dfTest.columns) ∧
    ((remove_duplicates dfTest .last).1.rows.map (dedupKey dfTest.columns)).Nodup :=
  ⟨by decide, remove_duplicates_key_unique dfTest .last (by decide)⟩

/-- C2: on the Scenario A table, `remove_duplicates` with keep='last' returns
exactly 3 rows, and the one surviving row of the duplicated (123, A1,
00:00, 00:15) interval carries energy 0.150. -/
theorem scenario_A_keep_last :
    (remove_duplicates dfTest .last).1.rows.length = 3 ∧
    ((remove_duplicates dfTest .last).1.rows.filter
        (fun r => decide (dedupKey dfTest.columns r = keyA))).map
      (fun r => getCell dfTest.columns r "Hatasos_ertek_kWh") =
      [some (.num (mkRat 15 100))] := by decide

/-- C3 counterexample: on a one-row table the recorded `retention_rate` is 100
(the code stores `final / initial * 100`, a percentage), while the ratio
`final_count / initial_count` is 1, so the claimed equality fails. -/
theorem retention_rate_not_ratio :
    (remove_duplicates dfOne .last).2.initial_count = 1 ∧
    (remove_duplicates dfOne .last).2.final_count = 1 ∧
    (remove_duplicates dfOne .last).2.retention_rate = 100 ∧
    (remove_duplicates dfOne .last).2.retention_rate ≠
      ((remove_duplicates dfOne .last).2.final_count : Rat) /
        ((remove_duplicates dfOne .last).2.initial_count : Rat) := by
  have hstats : (remove_duplicates dfOne .last).2 = update_statistics 1 1 0 0 := by
    have h1 : remove_full_duplicates dfOne = dfOne := by decide
    have h2 : remove_time_based_duplicates dfOne .last = (dfOne, 0) := by decide
    show update_statistics dfOne.rows.length
        (remove_time_based_duplicates (remove_full_duplicates dfOne) .last).1.rows.length
        (dfOne.rows.length - (remove_full_duplicates dfOne).rows.length)
        (remove_time_based_duplicates (remove_full_duplicates dfOne) .last).2 =
      update_statistics 1 1 0 0
    rw [h1, h2]
    rfl
  rw [hstats]
  refine ⟨rfl, rfl, ?_, ?_⟩
  · norm_num [update_statistics]
  · norm_num [update_statistics]

/-- C3 amended: after a run on a table with at least one row, the statistics
satisfy `removed_total = initial_count - final_count` and
`retention_rate = final_count / initial_count * 100` (a percentage). -/
theorem statistics_amended (df : DataFrame) (keep : KeepStrategy)
    (h : df.rows ≠ []) :
    ((remove_duplicates df keep).2.removed_total : Int) =
      ((remove_duplicates df keep).2.initial_count : Int) -
        ((remove_duplicates df keep).2.final_count : Int) ∧
    (remove_duplicates df keep).2.retention_rate =
      ((remove_duplicates df keep).2.final_count : Rat) /
        ((remove_duplicates df keep).2.initial_count : Rat) * 100 := by
  have hsub := (remove_time_based_duplicates_sublist (remove_full_duplicates df) keep).1
  have hle : (remove_time_based_duplicates (remove_full_duplicates df) keep).1.rows.length ≤
      df.rows.length :=
    le_trans hsub.length_le (dedupKeepFirst_sublist id df.rows).length_le
  have hpos : 0 < df.rows.length := List.length_pos.2 h
  simp only [remove_duplicates, update_statistics]
  constructor
  · omega
  · rw [if_pos hpos]

/-- Witness for C3 amended at the Scenario A table with keep='last'. -/
theorem statistics_amended_witness :
    dfTest.rows ≠ [] ∧
    (((remove_duplicates dfTest .last).2.removed_total : Int) =
      ((remove_duplicates dfTest .last).2.initial_count : Int) -
        ((remove_duplicates dfTest .last).2.final_count : Int) ∧
     (remove_duplicates dfTest .last).2.retention_rate =
      ((remove_duplicates dfTest .last).2.final_count : Rat) /
        ((remove_duplicates dfTest .last).2.initial_count : Rat) * 100) :=
  ⟨by decide, statistics_amended dfTest .last (by decide)⟩

/-- C6: when at least one of the four key columns is absent, the interval-key
pass returns its input unchanged together with a removed count of zero, and
does not fail. -/
theorem time_pass_missing_columns_noop (df : DataFrame) (keep : KeepStrategy)
    (h : ∃ c ∈ duplicate_columns, c ∉ df.columns) :
    remove_time_based_duplicates df keep = (df, 0) := by
  rcases h with ⟨c, hc, hnot⟩
  have hmiss : duplicate_columns.filter (fun c => decide (c ∉ df.columns)) ≠ [] := by
    intro hnil
    rw [List.filter_eq_nil_iff] at hnil
    exact hnil c hc (by simpa using hnot)
  simp only [remove_time_based_duplicates]
  rw [if_neg hmiss]

/-- Witness for C6 at a two-row table lacking the timestamp key columns. -/
theorem time_pass_missing_columns_noop_witness :
    (∃ c ∈ duplicate_columns, c ∉ dfNoKey.columns) ∧
    remove_time_based_duplicates dfNoKey .last = (dfNoKey, 0) :=
  ⟨by decide, time_pass_missing_columns_noop dfNoKey .last (by decide)⟩

/-- C8: the exact full-row duplicate-removal pass is idempotent. -/
theorem full_dedup_idempotent (df : DataFrame) :
    remove_full_duplicates (remove_full_duplicates df) = remove_full_duplicates df := by
  simp [remove_full_duplicates, dedupKeepFirst_idem]

/-- C10: `remove_duplicates` only deletes rows: the output rows form a sublist
of the input rows (each output row is an unchanged input row and relative
order is kept), and the column list is unchanged; the model is pure, matching
`drop_duplicates` returning fresh frames rather than mutating the input. -/
theorem remove_duplicates_rows_preserved (df : DataFrame) (keep : KeepStrategy) :
    (remove_duplicates df keep).1.rows.Sublist df.rows ∧
    (remove_duplicates df keep).1.columns = df.columns := by
  have h2 := remove_time_based_duplicates_sublist (remove_full_duplicates df) keep
  have h1 : (remove_full_duplicates df).rows.Sublist df.rows :=
    dedupKeepFirst_sublist id df.rows
  exact ⟨h2.1.trans h1, h2.2⟩

/-! ## Series Query Layer model (data_handler.py)

The cleaned series holds one interval start (a pandas timestamp, modelled as
minutes since 1970-01-01 00:00 — the data is minute-resolved) and one energy
value per row.  Calendar months, needed by the MS resampling rule, are
computed with the standard civil-calendar conversions. -/

/-- Day count since 1970-01-01 to (year, month, day). -/
def civilFromDays (z0 : Nat) : Nat × Nat × Nat :=
  let z := z0 + 719468
  let era := z / 146097
  let doe := z % 146097
  let yoe := (doe - doe / 1460 + doe / 36524 - doe / 146096) / 365
  let y := yoe + era * 400
  let doy := doe - (365 * yoe + yoe / 4 - yoe / 100)
  let mp := (5 * doy + 2) / 153
  let d := doy - (153 * mp + 2) / 5 + 1
  let m := if mp < 10 then mp + 3 else mp - 9
  (if m ≤ 2 then y + 1 else y, m, d)

/-- (year, month, day) to days since 1970-01-01, for dates on or after the
epoch. -/
def daysFromCivil (y m d : Nat) : Nat :=
  let y1 := if m ≤ 2 then y - 1 else y
  let era := y1 / 400
  let yoe := y1 % 400
  let mp := if 2 < m then m - 3 else m + 9
  let doy := (153 * mp + 2) / 5 + d - 1
  let doe := yoe * 365 + yoe / 4 - yoe / 100 + doy
  era * 146097 + doe - 719468

/-- Index of the calendar month a timestamp falls in: year × 12 + (month - 1). -/
def monthIdxOfTs (t : Nat) : Nat :=
  let c := civilFromDays (t / 1440)
  c.1 * 12 + (c.2.1 - 1)

/-- First minute of the calendar month with index `i`. -/
def monthStartTs (i : Nat) : Nat :=
  daysFromCivil (i / 12) (i % 12 + 1) 1 * 1440

/-- A row of the cleaned series (`Kezdo_datum`, `Hatasos_ertek_kWh`). -/
structure SRow where
  kezdo_datum : Nat
  hatasos_ertek_kWh : Rat
  deriving DecidableEq, Repr

/-- `FilterConfig`: date range (day numbers since the epoch) and granularity
string chosen in the GUI. -/
structure FilterConfig where
  start_date : Nat
  end_date : Nat
  interval : String
  deriving DecidableEq, Repr

/-- The mask of `filter_data`: `start_dt <= Kezdo_datum <= end_dt`, where
`start_dt` is the first minute of `start_date` (`time.min`) and `end_dt` the
last minute of `end_date` (`time.max`), so the whole end day is included. -/
def inRange (config : FilterConfig) (r : SRow) : Bool :=
  decide (config.start_date * 1440 ≤ r.kezdo_datum) &&
    decide (r.kezdo_datum ≤ config.end_date * 1440 + 1439)

/-- The rows selected by the mask, in their original order. -/
def filtered_rows (rows : List SRow) (config : FilterConfig) : List SRow :=
  rows.filter (inRange config)

/-- Sum of the energies of the rows satisfying `p` (a resample bin's `.sum()`;
an empty bin sums to 0). -/
def binSum (rows : List SRow) (p : SRow → Bool) : Rat :=
  ((rows.filter p).map SRow.hatasos_ertek_kWh).sum

def listMinD : List Nat → Nat
  | [] => 0
  | i :: is => is.foldl Nat.min i

def listMaxD : List Nat → Nat
  | [] => 0
  | i :: is => is.foldl Nat.max i

/-- Month indices of the rows of a series. -/
def monthIdxList (rows : List SRow) : List Nat :=
  rows.map fun r => monthIdxOfTs r.kezdo_datum

/-- Month of the earliest row. -/
def firstMonthIdx (rows : List SRow) : Nat := listMinD (monthIdxList rows)

/-- Month of the latest row. -/
def lastMonthIdx (rows : List SRow) : Nat := listMaxD (monthIdxList rows)

/-- Total in-month energy of a series. -/
def monthSum (rows : List SRow) (i : Nat) : Rat :=
  binSum rows fun r => decide (monthIdxOfTs r.kezdo_datum = i)

/-- `resample('MS').sum()`: one output row per calendar month from the month
of the earliest row to the month of the latest row, labelled by the month
start and holding the sum of that month's energies (0 when the month has no
rows — pandas emits empty bins with a zero sum). -/
def resampleMonthly (rows : List SRow) : List SRow :=
  if rows.isEmpty then []
  else
    let i0 := firstMonthIdx rows
    let i1 := lastMonthIdx rows
    (List.range (i1 + 1 - i0)).map fun k =>
      { kezdo_datum := monthStartTs (i0 + k)
        hatasos_ertek_kWh := monthSum rows (i0 + k) }

/-- Fixed-width resampling (rules `15T`, `H`, `D`, `W-MON`): bins of `width`
minutes anchored by the flooring function, from the earliest row's bin to the
latest row's bin. -/
def resampleFixed (flr : Nat → Nat) (width : Nat) (rows : List SRow) : List SRow :=
  if rows.isEmpty then []
  else
    let b0 := listMinD (rows.map fun r => flr r.kezdo_datum)
    let b1 := listMaxD (rows.map fun r => flr r.kezdo_datum)
    (List.range ((b1 - b0) / width + 1)).map fun k =>
      { kezdo_datum := b0 + k * width
        hatasos_ertek_kWh := binSum rows fun r => decide (flr r.kezdo_datum = b0 + k * width) }

def floor15 (t : Nat) : Nat := t - t % 15

def floorHour (t : Nat) : Nat := t - t % 60

def floorDay (t : Nat) : Nat := t - t % 1440

/-- W-MON: weekly bins ending on a Monday (1970-01-01 was a Thursday); a row
on day `d` is labelled by the first Monday on or after `d`. -/
def floorWeekMon (t : Nat) : Nat :=
  let d := t / 1440
  (d + (7 - (d + 3) % 7) % 7) * 1440

/-- `DataHandler.filter_data`: `None` for a missing or empty frame; mask by
the inclusive date range; `None` when the mask selects nothing; otherwise
aggregate by the rule `interval_map` assigns to the granularity string (a
granularity outside the map returns the filtered rows unaggregated). -/
def filter_data (df : Option (List SRow)) (config : FilterConfig) :
    Option (List SRow) :=
  match df with
  | none => none
  | some rows =>
    if rows.isEmpty then none
    else
      let filtered := filtered_rows rows config
      if filtered.isEmpty then none
      else if config.interval = "15min" then some (resampleFixed floor15 15 filtered)
      else if config.interval = "hourly" then some (resampleFixed floorHour 60 filtered)
      else if config.interval = "daily" then some (resampleFixed floorDay 1440 filtered)
      else if config.interval = "weekly" then some (resampleFixed floorWeekMon 10080 filtered)
      else if config.interval = "monthly" then some (resampleMonthly filtered)
      else some filtered

/-! ### Fold min/max lemmas -/

theorem foldl_min_le_init (l : List Nat) (a : Nat) : l.foldl Nat.min a ≤ a := by
  induction l generalizing a with
  | nil => exact Nat.le_refl a
  | cons b t ih => exact Nat.le_trans (ih (Nat.min a b)) (Nat.min_le_left a b)

theorem foldl_min_le_mem {l : List Nat} {x : Nat} (a : Nat) (hx : x ∈ l) :
    l.foldl Nat.min a ≤ x := by
  induction l generalizing a with
  | nil => cases hx
  | cons b t ih =>
    rcases List.mem_cons.1 hx with rfl | hmem
    · exact Nat.le_trans (foldl_min_le_init t (Nat.min a x)) (Nat.min_le_right a x)
    · exact ih (Nat.min a b) hmem

theorem le_foldl_max_init (l : List Nat) (a : Nat) : a ≤ l.foldl Nat.max a := by
  induction l generalizing a with
  | nil => exact Nat.le_refl a
  | cons b t ih => exact Nat.le_trans (Nat.le_max_left a b) (ih (Nat.max a b))

theorem le_foldl_max_mem {l : List Nat} {x : Nat} (a : Nat) (hx : x ∈ l) :
    x ≤ l.foldl Nat.max a := by
  induction l generalizing a with
  | nil => cases hx
  | cons b t ih =>
    rcases List.mem_cons.1 hx with rfl | hmem
    · exact Nat.le_trans (Nat.le_max_right a x) (le_foldl_max_init t (Nat.max a x))
    · exact ih (Nat.max a b) hmem

theorem firstMonthIdx_le {rows : List SRow} {r : SRow} (hr : r ∈ rows) :
    firstMonthIdx rows ≤ monthIdxOfTs r.kezdo_datum := by
  cases rows with
  | nil => cases hr
  | cons a t =>
    rcases List.mem_cons.1 hr with rfl | hmem
    · exact foldl_min_le_init _ _
    · exact foldl_min_le_mem _ (List.mem_map_of_mem _ hmem)

theorem le_lastMonthIdx {rows : List SRow} {r : SRow} (hr : r ∈ rows) :
    monthIdxOfTs r.kezdo_datum ≤ lastMonthIdx rows := by
  cases rows with
  | nil => cases hr
  | cons a t =>
    rcases List.mem_cons.1 hr with rfl | hmem
    · exact le_foldl_max_init _ _
    · exact le_foldl_max_mem _ (List.mem_map_of_mem _ hmem)

/-- A series with one reading on day 100 of the epoch. -/
def rowsD : List SRow := [{ kezdo_datum := 144000, hatasos_ertek_kWh := 1 }]

/-- A query over days 0–50, touching none of `rowsD`. -/
def configD : FilterConfig := { start_date := 0, end_date := 50, interval := "daily" }

/-- C7: a date range (inclusive of the whole end day) containing none of the
series' interval starts makes `filter_data` return the empty result `none`
rather than failing. -/
theorem filter_data_empty_range (rows : List SRow) (config : FilterConfig)
    (h : ∀ r ∈ rows, ¬(config.start_date * 1440 ≤ r.kezdo_datum ∧
        r.kezdo_datum ≤ config.end_date * 1440 + 1439)) :
    filter_data (some rows) config = none := by
  have hfil : filtered_rows rows config = [] := by
    rw [filtered_rows, List.filter_eq_nil_iff]
    intro r hr
    simp only [inRange, Bool.and_eq_true, decide_eq_true_eq]
    exact h r hr
  cases hrows : rows.isEmpty
  · simp [filter_data, hrows, hfil]
  · simp [filter_data, hrows]

/-- Witness for C7 at `rowsD` / `configD`. -/
theorem filter_data_empty_range_witness :
    (∀ r ∈ rowsD, ¬(configD.start_date * 1440 ≤ r.kezdo_datum ∧
        r.kezdo_datum ≤ configD.end_date * 1440 + 1439)) ∧
    filter_data (some rowsD) configD = none :=
  ⟨by decide, filter_data_empty_range rowsD configD (by decide)⟩

/-- Scenario E series: readings on 2025-01-15 and 2025-03-10, nothing in
February 2025. -/
def rowsE : List SRow :=
  [{ kezdo_datum := daysFromCivil 2025 1 15 * 1440, hatasos_ertek_kWh := 1 },
   { kezdo_datum := daysFromCivil 2025 3 10 * 1440, hatasos_ertek_kWh := 2 }]

/-- A monthly query over the whole of 2025 (month indices 24300–24311). -/
def configE : FilterConfig :=
  { start_date := daysFromCivil 2025 1 1
    end_date := daysFromCivil 2025 12 31
    interval := "monthly" }

/-- C5 counterexample: the monthly result for `rowsE` has three rows — one of
them for February 2025 (month index 24301) with energy 0 although no reading
of the series falls in that month — where the claim predicts one row per
month with a reading, hence two. -/
theorem monthly_resample_emits_empty_months :
    filter_data (some rowsE) configE =
      some [{ kezdo_datum := monthStartTs 24300, hatasos_ertek_kWh := 1 },
            { kezdo_datum := monthStartTs 24301, hatasos_ertek_kWh := 0 },
            { kezdo_datum := monthStartTs 24302, hatasos_ertek_kWh := 2 }] ∧
    rowsE.filter (fun r => decide (monthIdxOfTs r.kezdo_datum = 24301)) = [] := by
  have hfil : filtered_rows rowsE configE = rowsE := by decide
  have hne : rowsE.isEmpty = false := by decide
  have h0 : firstMonthIdx rowsE = 24300 := by decide
  have h1 : lastMonthIdx rowsE = 24302 := by decide
  have hrange : List.range 3 = [0, 1, 2] := by decide
  have hf0 : rowsE.filter (fun r => decide (monthIdxOfTs r.kezdo_datum = 24300)) =
      [{ kezdo_datum := daysFromCivil 2025 1 15 * 1440, hatasos_ertek_kWh := 1 }] := by
    decide
  have hf1 : rowsE.filter (fun r => decide (monthIdxOfTs r.kezdo_datum = 24301)) = [] := by
    decide
  have hf2 : rowsE.filter (fun r => decide (monthIdxOfTs r.kezdo_datum = 24302)) =
      [{ kezdo_datum := daysFromCivil 2025 3 10 * 1440, hatasos_ertek_kWh := 2 }] := by
    decide
  have hne2 : rowsE ≠ [] := by decide
  have hci : configE.interval = "monthly" := rfl
  have hs15 : ("monthly" : String) ≠ "15min" := by decide
  have hsh : ("monthly" : String) ≠ "hourly" := by decide
  have hsd : ("monthly" : String) ≠ "daily" := by decide
  have hsw : ("monthly" : String) ≠ "weekly" := by decide
  refine ⟨?_, hf1⟩
  simp only [filter_data, hfil, hci, hs15, hsh, hsd, hsw]
  norm_num [hne, hne2, resampleMonthly, h0, h1, hrange, monthSum, binSum, hf0, hf1, hf2]

/-- C5 amended: at monthly granularity, when at least one row is in range, the
result has exactly one row per calendar month from the first to the last
month carrying an in-range reading; the row of month `i0 + k` is labelled by
that month's start and holds the sum of that month's in-range energies, which
is 0 for the months in between that have no reading. -/
theorem monthly_resample_amended (rows : List SRow) (config : FilterConfig)
    (hm : config.interval = "monthly") (r0 : SRow) (hr0 : r0 ∈ rows)
    (hin : inRange config r0 = true) :
    ∃ out, filter_data (some rows) config = some out ∧
      (∀ r ∈ filtered_rows rows config,
        firstMonthIdx (filtered_rows rows config) ≤ monthIdxOfTs r.kezdo_datum ∧
          monthIdxOfTs r.kezdo_datum ≤ lastMonthIdx (filtered_rows rows config)) ∧
      out.length = lastMonthIdx (filtered_rows rows config) + 1 -
          firstMonthIdx (filtered_rows rows config) ∧
      ∀ (k : Nat) (hk : k < out.length),
        out[k].kezdo_datum =
          monthStartTs (firstMonthIdx (filtered_rows rows config) + k) ∧
        out[k].hatasos_ertek_kWh =
          monthSum (filtered_rows rows config)
            (firstMonthIdx (filtered_rows rows config) + k) := by
  set F := filtered_rows rows config with hF
  have hmemF : r0 ∈ F := by
    rw [hF, filtered_rows]
    exact List.mem_filter.2 ⟨hr0, hin⟩
  have hFne : F.isEmpty = false := by
    cases hFe : F
    · rw [hFe] at hmemF; cases hmemF
    · rfl
  have hrne : rows.isEmpty = false := by
    cases hre : rows
    · rw [hre] at hr0; cases hr0
    · rfl
  have hres : resampleMonthly F =
      (List.range (lastMonthIdx F + 1 - firstMonthIdx F)).map fun k =>
        { kezdo_datum := monthStartTs (firstMonthIdx F + k)
          hatasos_ertek_kWh := monthSum F (firstMonthIdx F + k) } := by
    simp [resampleMonthly, hFne]
  have hout : filter_data (some rows) config = some (resampleMonthly F) := by
    have hs15 : ("monthly" : String) ≠ "15min" := by decide
    have hsh : ("monthly" : String) ≠ "hourly" := by decide
    have hsd : ("monthly" : String) ≠ "daily" := by decide
    have hsw : ("monthly" : String) ≠ "weekly" := by decide
    simp only [filter_data, hrne, hm, ← hF, hs15, hsh, hsd, hsw]
    norm_num [hFne]
  refine ⟨resampleMonthly F, hout, ?_, ?_, ?_⟩
  · exact fun r hr => ⟨firstMonthIdx_le hr, le_lastMonthIdx hr⟩
  · rw [hres]
    simp
  · intro k hk
    refine ⟨?_, ?_⟩ <;> simp only [hres, List.getElem_map, List.getElem_range]

/-- Witness for C5 amended at `rowsE` / `configE` with the January reading as
the in-range row. -/
theorem monthly_resample_amended_witness :
    configE.interval = "monthly" ∧
    ({ kezdo_datum := daysFromCivil 2025 1 15 * 1440, hatasos_ertek_kWh := 1 } : SRow)
      ∈ rowsE ∧
    inRange configE
      { kezdo_datum := daysFromCivil 2025 1 15 * 1440, hatasos_ertek_kWh := 1 } = true ∧
    (∃ out, filter_data (some rowsE) configE = some out ∧
      (∀ r ∈ filtered_rows rowsE configE,
        firstMonthIdx (filtered_rows rowsE configE) ≤ monthIdxOfTs r.kezdo_datum ∧
          monthIdxOfTs r.kezdo_datum ≤ lastMonthIdx (filtered_rows rowsE configE)) ∧
      out.length = lastMonthIdx (filtered_rows rowsE configE) + 1 -
          firstMonthIdx (filtered_rows rowsE configE) ∧
      ∀ (k : Nat) (hk : k < out.length),
        out[k].kezdo_datum =
          monthStartTs (firstMonthIdx (filtered_rows rowsE configE) + k) ∧
        out[k].hatasos_ertek_kWh =
          monthSum (filtered_rows rowsE configE)
            (firstMonthIdx (filtered_rows rowsE configE) + k)) :=
  ⟨rfl, by decide, by decide,
   monthly_resample_amended rowsE configE rfl
     { kezdo_datum := daysFromCivil 2025 1 15 * 1440, hatasos_ertek_kWh := 1 }
     (by decide) (by decide)⟩

/-! ## Quality Validator model (core/data_validator.py)

Validator rows carry the two interval timestamps (seconds since the epoch,
`none` modelling NaT) and the energy (`none` modelling NaN).  Comparisons
against a missing value are false and aggregations skip missing values, as in
pandas.  A Python exception escaping a check is modelled by `Except.error`. -/

structure VRow where
  kezdo_datum : Option Int
  zaro_datum : Option Int
  hatasos_ertek_kWh : Option Rat
  deriving DecidableEq, Repr

/-- `Intervallum_perc`: interval length in minutes
(`(Zaro_datum - Kezdo_datum).dt.total_seconds() / 60`), missing when either
timestamp is missing. -/
def intervallumPerc (r : VRow) : Option Rat :=
  match r.kezdo_datum, r.zaro_datum with
  | some k, some z => some (((z - k : Int) : Rat) / 60)
  | _, _ => none

/-- The 15-minute bucket: `14 <= Intervallum_perc <= 16`. -/
def in15Bucket (r : VRow) : Bool :=
  match intervallumPerc r with
  | some m => decide (14 ≤ m) && decide (m ≤ 16)
  | none => false

/-- The 60-minute bucket: `55 <= Intervallum_perc <= 65`. -/
def in60Bucket (r : VRow) : Bool :=
  match intervallumPerc r with
  | some m => decide (55 ≤ m) && decide (m ≤ 65)
  | none => false

inductive HealthStatus where
  | healthy
  | warning
  | critical
  | unknown
  deriving DecidableEq, Repr

/-- `ValidationResult` (the advisory message and details strings are not
modelled). -/
structure ValidationResult where
  is_valid : Bool
  severity : HealthStatus
  deriving DecidableEq, Repr

/-- `DataValidator._validate_time_intervals`: counts the rows of the two
standard buckets and computes `standard_percentage = total_standard /
len(df) * 100`; on a zero-row input that division raises `ZeroDivisionError`
— the source has no guard — modelled by `Except.error`; the check passes
exactly when the percentage is strictly above 95. -/
def validate_time_intervals (rows : List VRow) : Except String ValidationResult :=
  let interval_15min := (rows.filter in15Bucket).length
  let interval_60min := (rows.filter in60Bucket).length
  let total_standard := interval_15min + interval_60min
  if rows.length = 0 then .error "ZeroDivisionError"
  else
    let standard_percentage : Rat :=
      ((total_standard : Rat) / (rows.length : Rat)) * 100
    if 95 < standard_percentage then .ok { is_valid := true, severity := .healthy }
    else .ok { is_valid := false, severity := .warning }

/-- `DataValidator._validate_data_completeness`. -/
def validate_data_completeness (rows : List VRow) : List ValidationResult :=
  let missing_start_dates := (rows.filter fun r => r.kezdo_datum.isNone).length
  let missing_end_dates := (rows.filter fun r => r.zaro_datum.isNone).length
  let missing_consumption := (rows.filter fun r => r.hatasos_ertek_kWh.isNone).length
  let total_missing := missing_start_dates + missing_end_dates + missing_consumption
  if total_missing = 0 then [{ is_valid := true, severity := .healthy }]
  else [{ is_valid := false, severity := .warning }]

def kwhNeg (r : VRow) : Bool :=
  match r.hatasos_ertek_kWh with
  | some v => decide (v < 0)
  | none => false

def kwhZero (r : VRow) : Bool :=
  match r.hatasos_ertek_kWh with
  | some v => decide (v = 0)
  | none => false

/-- `DataValidator._validate_consumption_values` (the zero-value percentage
divides by the row count only under `zero_count > 0`, so that division cannot
hit a zero denominator). -/
def validate_consumption_values (rows : List VRow) : List ValidationResult :=
  let negative_count := (rows.filter kwhNeg).length
  let zero_count := (rows.filter kwhZero).length
  let res_neg : List ValidationResult :=
    if 0 < negative_count then [{ is_valid := false, severity := .warning }] else []
  let res_zero : List ValidationResult :=
    if 0 < zero_count then
      let zero_percentage : Rat := ((zero_count : Rat) / (rows.length : Rat)) * 100
      [{ is_valid := decide (zero_percentage < 5)
         severity := if 10 < zero_percentage then .critical else .warning }]
    else []
  res_neg ++ res_zero

inductive SeasonType where
  | winter
  | spring
  | summer
  | autumn
  deriving DecidableEq, Repr

/-- `_get_season_for_month`: December–February winter, March–May spring,
June–August summer, everything else autumn. -/
def get_season_for_month (m : Nat) : SeasonType :=
  if m = 12 ∨ m = 1 ∨ m = 2 then .winter
  else if m = 3 ∨ m = 4 ∨ m = 5 then .spring
  else if m = 6 ∨ m = 7 ∨ m = 8 then .summer
  else .autumn

/-- `ConsumptionBounds` per season. -/
structure ConsumptionBounds where
  min_daily_kwh : Rat
  max_daily_kwh : Rat
  expected_hourly_kwh : Rat
  deriving DecidableEq, Repr

/-- The fixed `seasonal_bounds` table of the validator. -/
def seasonal_bounds : SeasonType → ConsumptionBounds
  | .winter => { min_daily_kwh := 15, max_daily_kwh := 80, expected_hourly_kwh := mkRat 15 10 }
  | .spring => { min_daily_kwh := 8, max_daily_kwh := 40, expected_hourly_kwh := mkRat 8 10 }
  | .summer => { min_daily_kwh := 3, max_daily_kwh := 25, expected_hourly_kwh := mkRat 4 10 }
  | .autumn => { min_daily_kwh := 10, max_daily_kwh := 50, expected_hourly_kwh := 1 }

/-- `Orankenti_fogyasztas = Hatasos_ertek_kWh / Intervallum_ora`, missing when
a source value is missing (a zero-length interval would give a float
infinity; the model assumes nonzero durations, where exact and float division
agree in sign and comparisons). -/
def orankentiFogyasztas (r : VRow) : Option Rat :=
  match r.hatasos_ertek_kWh, r.kezdo_datum, r.zaro_datum with
  | some v, some k, some z => some (v / (((z - k : Int) : Rat) / 3600))
  | _, _, _ => none

/-- Pandas `.mean()`: skips missing values, missing when nothing remains. -/
def avgHourly (rows : List VRow) : Option Rat :=
  let vals := rows.filterMap orankentiFogyasztas
  if vals.isEmpty then none else some (vals.sum / (vals.length : Rat))

/-- `avg_daily = avg_hourly * 24`. -/
def avgDaily (rows : List VRow) : Option Rat :=
  (avgHourly rows).map fun h => h * 24

/-- Pandas `.min()` over a column, skipping missing values. -/
def optIntMin (l : List (Option Int)) : Option Int :=
  match l.filterMap id with
  | [] => none
  | x :: xs => some (xs.foldl Min.min x)

/-- Pandas `.max()` over a column, skipping missing values. -/
def optIntMax (l : List (Option Int)) : Option Int :=
  match l.filterMap id with
  | [] => none
  | x :: xs => some (xs.foldl Max.max x)

/-- Month (1–12) of a timestamp in seconds (post-epoch times). -/
def monthOfSeconds (t : Int) : Nat := (civilFromDays (t.toNat / 86400)).2.1

/-- `_get_season_for_period`: season of the midpoint of the date range. -/
def get_season_for_period (ds de : Int) : SeasonType :=
  get_season_for_month (monthOfSeconds (ds + (de - ds) / 2))

/-- `DataValidator._validate_seasonal_patterns`: compares the average daily
consumption against the dominant season's band; a missing average fails the
chained bound comparison and lands in the warning branch, and a missing
midpoint month falls through `_get_season_for_month` to autumn. -/
def validate_seasonal_patterns (rows : List VRow) : List ValidationResult :=
  let season :=
    match optIntMin (rows.map VRow.kezdo_datum),
        optIntMax (rows.map VRow.zaro_datum) with
    | some ds, some de => get_season_for_period ds de
    | _, _ => SeasonType.autumn
  let bounds := seasonal_bounds season
  match avgDaily rows with
  | some ad =>
    if bounds.min_daily_kwh ≤ ad ∧ ad ≤ bounds.max_daily_kwh then
      [{ is_valid := true, severity := .healthy }]
    else [{ is_valid := false, severity := .warning }]
  | none => [{ is_valid := false, severity := .warning }]

/-- `DataValidator._calculate_overall_health`: the worst severity wins;
unknown when no check ran. -/
def calculate_overall_health (results : List ValidationResult) : HealthStatus :=
  if results.isEmpty then .unknown
  else if results.any fun r => decide (r.severity = .critical) then .critical
  else if results.any fun r => decide (r.severity = .warning) then .warning
  else .healthy

/-- `DataValidator.validate_comprehensive`: runs the four check groups in
order and collects their results with the overall health (the report fields
merely paraphrasing the inputs are not modelled); an exception escaping a
check aborts the whole call. -/
def validate_comprehensive (rows : List VRow) :
    Except String (List ValidationResult × HealthStatus) := do
  let res_completeness := validate_data_completeness rows
  let res_consumption := validate_consumption_values rows
  let res_intervals ← validate_time_intervals rows
  let res_seasonal := validate_seasonal_patterns rows
  let validation_results :=
    res_completeness ++ res_consumption ++ [res_intervals] ++ res_seasonal
  return (validation_results, calculate_overall_health validation_results)

/-- `DataValidator.quick_validate`: the overall health of the comprehensive
report. -/
def quick_validate (rows : List VRow) : Except String HealthStatus :=
  (validate_comprehensive rows).map fun p => p.2

/-- A standard 15-minute validator row (900 seconds). -/
def vrowStd : VRow :=
  { kezdo_datum := some 0, zaro_datum := some 900, hatasos_ertek_kWh := some 1 }

/-- A zero-length-interval validator row, in neither standard bucket. -/
def vrowOdd : VRow :=
  { kezdo_datum := some 0, zaro_datum := some 0, hatasos_ertek_kWh := some 1 }

/-- Twenty validator rows, exactly 95% of them standard. -/
def vrowsC4 : List VRow := List.replicate 19 vrowStd ++ [vrowOdd]

theorem in15Bucket_vrowStd : in15Bucket vrowStd = true := by
  simp only [in15Bucket, vrowStd, intervallumPerc]
  norm_num

theorem in15Bucket_vrowOdd : in15Bucket vrowOdd = false := by
  simp only [in15Bucket, vrowOdd, intervallumPerc]
  norm_num

theorem in60Bucket_vrowStd : in60Bucket vrowStd = false := by
  simp only [in60Bucket, vrowStd, intervallumPerc]
  norm_num

theorem in60Bucket_vrowOdd : in60Bucket vrowOdd = false := by
  simp only [in60Bucket, vrowOdd, intervallumPerc]
  norm_num

/-- C4 counterexample: on `vrowsC4` exactly 95% of the rows are standard —
the claimed "at least 95% passes" predicts a pass — yet the check reports a
warning, because the source compares with strict `> 95`. -/
theorem interval_check_rejects_95_percent :
    (((vrowsC4.filter in15Bucket).length + (vrowsC4.filter in60Bucket).length : Nat) : Rat) /
        (vrowsC4.length : Rat) * 100 = 95 ∧
    validate_time_intervals vrowsC4 =
      .ok { is_valid := false, severity := .warning } := by
  have h15 : (vrowsC4.filter in15Bucket).length = 19 := by
    simp [vrowsC4, List.filter_append, List.filter_replicate,
      in15Bucket_vrowStd, in15Bucket_vrowOdd]
  have h60 : (vrowsC4.filter in60Bucket).length = 0 := by
    simp [vrowsC4, List.filter_append, List.filter_replicate,
      in60Bucket_vrowStd, in60Bucket_vrowOdd]
  have hlen : vrowsC4.length = 20 := by simp [vrowsC4]
  constructor
  · rw [h15, h60, hlen]
    norm_num
  · simp only [validate_time_intervals, h15, h60, hlen]
    norm_num

/-- C4 amended: on every non-empty series the check classifies a row's
duration in minutes into the 15-minute bucket exactly when it is within ±1
minute of 15, into the 60-minute bucket exactly when within ±5 minutes of
60, and reports pass (healthy) if and only if STRICTLY more than 95% of the
rows fall into the two standard buckets, otherwise a warning. -/
theorem interval_regularity_amended (rows : List VRow) (h : rows ≠ []) :
    (∀ r ∈ rows, ∀ m : Rat, intervallumPerc r = some m →
      (in15Bucket r = true ↔ |m - 15| ≤ 1) ∧
      (in60Bucket r = true ↔ |m - 60| ≤ 5)) ∧
    ∃ res, validate_time_intervals rows = .ok res ∧
      (res.is_valid = true ↔
        95 < (((rows.filter in15Bucket).length +
            (rows.filter in60Bucket).length : Nat) : Rat) /
          (rows.length : Rat) * 100) ∧
      res.severity = (if res.is_valid then HealthStatus.healthy else .warning) := by
  have hlen : ¬ rows.length = 0 := by simpa using h
  constructor
  · intro r hr m hm
    constructor
    · rw [in15Bucket, hm]
      simp only [Bool.and_eq_true, decide_eq_true_eq, abs_le]
      constructor
      · rintro ⟨h1, h2⟩
        constructor <;> linarith
      · rintro ⟨h1, h2⟩
        constructor <;> linarith
    · rw [in60Bucket, hm]
      simp only [Bool.and_eq_true, decide_eq_true_eq, abs_le]
      constructor
      · rintro ⟨h1, h2⟩
        constructor <;> linarith
      · rintro ⟨h1, h2⟩
        constructor <;> linarith
  · simp only [validate_time_intervals]
    rw [if_neg hlen]
    by_cases hc : (95 : Rat) <
        (((rows.filter in15Bucket).length + (rows.filter in60Bucket).length : Nat) : Rat) /
          (rows.length : Rat) * 100
    · rw [if_pos hc]
      exact ⟨_, rfl, by simpa using hc, rfl⟩
    · rw [if_neg hc]
      exact ⟨_, rfl, by simpa using hc, rfl⟩

/-- Witness for C4 amended at a single standard row. -/
theorem interval_regularity_amended_witness :
    [vrowStd] ≠ ([] : List VRow) ∧
    ((∀ r ∈ [vrowStd], ∀ m : Rat, intervallumPerc r = some m →
      (in15Bucket r = true ↔ |m - 15| ≤ 1) ∧
      (in60Bucket r = true ↔ |m - 60| ≤ 5)) ∧
    ∃ res, validate_time_intervals [vrowStd] = .ok res ∧
      (res.is_valid = true ↔
        95 < ((([vrowStd].filter in15Bucket).length +
            ([vrowStd].filter in60Bucket).length : Nat) : Rat) /
          (([vrowStd] : List VRow).length : Rat) * 100) ∧
      res.severity = (if res.is_valid then HealthStatus.healthy else .warning)) :=
  ⟨by simp, interval_regularity_amended [vrowStd] (by simp)⟩

/-- C9: the interval-regularity check has no zero-row guard, so it — and with
it `validate_comprehensive` and `quick_validate` — fails with the division
error on an empty series, while every non-empty series gets a report. -/
theorem empty_series_validation_error :
    validate_time_intervals ([] : List VRow) = .error "ZeroDivisionError" ∧
    validate_comprehensive ([] : List VRow) = .error "ZeroDivisionError" ∧
    quick_validate ([] : List VRow) = .error "ZeroDivisionError" ∧
    ∀ rows : List VRow, rows ≠ [] →
      (validate_comprehensive rows).isOk = true := by
  refine ⟨rfl, rfl, rfl, ?_⟩
  intro rows hne
  have hlen : ¬ rows.length = 0 := by simpa using hne
  have hint : ∃ res, validate_time_intervals rows = .ok res := by
    simp only [validate_time_intervals]
    rw [if_neg hlen]
    split
    · exact ⟨_, rfl⟩
    · exact ⟨_, rfl⟩
  obtain ⟨res, hres⟩ := hint
  simp [validate_comprehensive, hres, Except.isOk, Except.toBool, Except.bind]

/-- Witness for C9 at a one-row series. -/
theorem empty_series_validation_error_witness :
    (validate_comprehensive [vrowStd]).isOk = true :=
  empty_series_validation_error.2.2.2 [vrowStd] (by simp)

end EnergiaMonitoring
